import Mathlib

/-!
Shallow embedding of the NCS-18 dose-calibration module (`pylinac/ncs18.py`).

Numeric values are modelled as exact rationals (`ℚ`).  Reading collections are
lists averaged by `listMean`.  Python `round(x, 1)` (round half to even) is
`pyRound1`.  Fallible functions return `Except`; `k_s` additionally returns the
list of advisory warnings it emits, in emission order, so that the relative
order of warnings and errors is visible.  The transcendental helpers used by
`k_q` (`numpy.exp` and the real power `r ** c`) are taken as function
parameters `ex` and `pw`, since the claims about `k_q` concern control flow and
the algebraic shape of the result, not particular values of `exp`.
-/

namespace NCS18

/-- Arithmetic mean of a list of readings (`numpy.mean`). -/
def listMean (l : List ℚ) : ℚ := l.sum / (l.length : ℚ)

/-- Round to the nearest integer, ties to even (Python `round` semantics). -/
def roundHalfEven (x : ℚ) : ℤ :=
  if 2 * (x - ⌊x⌋) < 1 then ⌊x⌋
  else if 2 * (x - ⌊x⌋) > 1 then ⌊x⌋ + 1
  else if ⌊x⌋ % 2 = 0 then ⌊x⌋ else ⌊x⌋ + 1

/-- Python `round(x, 1)`: round to one decimal digit, ties to even. -/
def pyRound1 (x : ℚ) : ℚ := (roundHalfEven (10 * x) : ℚ) / 10

/-- A 3-coefficient quadratic fit, highest degree first (as in `numpy.poly1d`). -/
structure Coeffs where
  c0 : ℚ
  c1 : ℚ
  c2 : ℚ
deriving DecidableEq

/-- The nine voltage-ratio keys of `RECOMBINATION_COHORTS`. -/
def cohortKeys : List ℚ := [2, 2.5, 3, 3.5, 4, 5, 6, 8, 10]

/-- Lookup in the `RECOMBINATION_COHORTS` dict (NCS 18, Table 4). -/
def cohortCoeffs (q : ℚ) : Option Coeffs :=
  if q = 2 then some ⟨2.299, -3.636, 2.337⟩
  else if q = 2.5 then some ⟨1.114, -1.587, 1.474⟩
  else if q = 3 then some ⟨0.677, -0.875, 1.198⟩
  else if q = 3.5 then some ⟨0.463, -0.542, 1.080⟩
  else if q = 4 then some ⟨0.341, -0.363, 1.022⟩
  else if q = 5 then some ⟨0.2135, -0.1875, 0.9745⟩
  else if q = 6 then some ⟨0.1495, -0.1075, 0.9584⟩
  else if q = 8 then some ⟨0.08750, -0.03732, 0.9502⟩
  else if q = 10 then some ⟨0.05909, -0.01041, 0.9516⟩
  else none

/-- The one advisory warning `k_s` can emit (`warn(...)` for a low ratio). -/
inductive KSWarning where
  | advisory : KSWarning
deriving DecidableEq

/-- The one error `k_s` can raise (`ValueError` for an unsupported ratio). -/
inductive KSError where
  | unsupported : KSError
deriving DecidableEq

/-- Recombination correction `k_s` (NCS-18 eq. 21).  The first component is
the list of warnings emitted, in order, before the function returns; the
second is the returned value or the raised error.  Mirrors the source: the
rounded voltage ratio is computed, the low-ratio advisory is emitted when the
ratio is below 3, then the out-of-range check, then the dict lookup whose
`KeyError` is re-raised as the same `ValueError`. -/
def k_s (volt_normal volt_low : ℚ) (m_normal m_low : List ℚ) :
    List KSWarning × Except KSError ℚ :=
  let rq := pyRound1 (volt_normal / volt_low)
  let ws := if rq < 3 then [KSWarning.advisory] else []
  if rq < 2 ∨ rq > 10 then (ws, Except.error KSError.unsupported)
  else
    match cohortCoeffs rq with
    | some c =>
        (ws, Except.ok (c.c0 * (listMean m_normal / listMean m_low) ^ 2 +
          c.c1 * (listMean m_normal / listMean m_low) + c.c2))
    | none => (ws, Except.error KSError.unsupported)

/-- Sign of a rational as in `numpy.sign`: 1, -1, or 0. -/
def sgn (q : ℚ) : ℤ := if 0 < q then 1 else if q < 0 then -1 else 0

/-- Polarity correction `k_pol` (NCS-18 eq. 18): average the three reading
collections; if the negative and positive averages share the same sign, flip
the negative one; return `(|pos| + |neg|) / (2 * ref)`.  Total function: the
source never raises. -/
def k_pol (m_reference m_negative m_positive : List ℚ) : ℚ :=
  let nAvg := listMean m_negative
  let pAvg := listMean m_positive
  let rAvg := listMean m_reference
  let nFlipped := if sgn nAvg = sgn pAvg then -nAvg else nAvg
  (|pAvg| + |nFlipped|) / (2 * rAvg)

/-- Discriminates `Except.ok` results (a successful return, i.e. no raise). -/
def exceptIsOk {ε α : Type} : Except ε α → Bool
  | Except.ok _ => true
  | Except.error _ => false

/-- Sigmoid fit parameters of a photon chamber (`CHAMBERS_PHOTONS` entries). -/
structure PhotonChamber where
  X0 : ℚ
  C : ℚ
  A : ℚ
deriving DecidableEq

/-- Power-law fit parameters of an electron chamber (`CHAMBERS_ELECTRONS`). -/
structure ElectronChamber where
  A : ℚ
  B : ℚ
  C : ℚ
deriving DecidableEq

/-- Lookup in the `CHAMBERS_PHOTONS` dict (NCS 18, Table 10). -/
def chambersPhotons (model : String) : Option PhotonChamber :=
  if model = "30012" then some ⟨0.9198, 11.67, 0.80⟩
  else if model = "FC65-G" then some ⟨0.9198, 11.67, 0.80⟩
  else if model = "2561" then some ⟨0.8971, 15.15, 0.80⟩
  else if model = "2571" then some ⟨0.9198, 11.67, 0.80⟩
  else if model = "2611A" then some ⟨0.8971, 15.15, 0.80⟩
  else none

/-- Lookup in the `CHAMBERS_ELECTRONS` dict. -/
def chambersElectrons (model : String) : Option ElectronChamber :=
  if model = "30010" then some ⟨0.9345, 0.0057, 0.7733⟩
  else if model = "FC65G" then some ⟨0.9345, 0.0057, 0.7733⟩
  else if model = "2571" then some ⟨0.9345, 0.0057, 0.7733⟩
  else if model = "NACP02" then some ⟨1.1955, 0.2274, 0.1479⟩
  else if model = "Roos" then some ⟨1.1376, 0.1700, 0.1835⟩
  else none

/-- The errors `k_q` can raise: the two `ValueError`s of the presence checks,
the `ValueError` for an out-of-range TPR, and the `KeyError` of an unknown
chamber model propagating out of the dict lookup. -/
inductive KQError where
  | neitherProvided : KQError
  | bothProvided : KQError
  | tprOutOfRange : KQError
  | unknownModel : KQError
deriving DecidableEq

/-- Python truthiness of an optional float argument: `None` and `0` are
falsy, every other number is truthy. -/
def truthy (o : Option ℚ) : Bool :=
  match o with
  | none => false
  | some q => decide (q ≠ 0)

/-- Beam-quality correction `k_q` (NCS-18 eq. 30 / eq. 37), parameterised by
the exponential `ex` (`numpy.exp`) and the power `pw` (`r_50 ** c`).  Mirrors
the source line by line: `if not any((tpr, r_50))` is the truthiness test of
both arguments; `if tpr and r_50 is not None` needs a truthy `tpr` but only a
present `r_50`; the photon branch keys on `tpr is not None`, rejects
`tpr > 0.805 or tpr < 0.623` and otherwise evaluates the sigmoid of the
chamber looked up in the photon table; the electron branch evaluates the
power law of the chamber looked up in the electron table.  The final arm is
unreachable (both arguments absent is caught by the first check). -/
def k_q (ex : ℚ → ℚ) (pw : ℚ → ℚ → ℚ) (model : String)
    (tpr r50 : Option ℚ) : Except KQError ℚ :=
  if !(truthy tpr || truthy r50) then Except.error KQError.neitherProvided
  else if truthy tpr && r50.isSome then Except.error KQError.bothProvided
  else
    match tpr with
    | some t =>
        if t > 0.805 ∨ t < 0.623 then Except.error KQError.tprOutOfRange
        else
          match chambersPhotons model with
          | some ch =>
              Except.ok (ch.A + (1 - ch.A) * (1 + ex (ch.C * (0.57 - ch.X0))) /
                (1 + ex (ch.C * (t - ch.X0))))
          | none => Except.error KQError.unknownModel
    | none =>
        match r50 with
        | some r =>
            match chambersElectrons model with
            | some ch => Except.ok (ch.A - ch.B * pw r ch.C)
            | none => Except.error KQError.unknownModel
        | none => Except.error KQError.neitherProvided

/-- A temperature carrying its pint unit. -/
inductive TempQ where
  | celsius (q : ℚ) : TempQ
  | fahrenheit (q : ℚ) : TempQ
  | kelvin (q : ℚ) : TempQ
deriving DecidableEq

/-- A pressure carrying its pint unit. -/
inductive PressQ where
  | mbar (q : ℚ) : PressQ
  | kPa (q : ℚ) : PressQ
  | mmHg (q : ℚ) : PressQ
deriving DecidableEq

/-- Conversion of a temperature to the base unit kelvin (`to_base_units`). -/
def TempQ.toKelvin : TempQ → ℚ
  | TempQ.celsius q => q + 273.15
  | TempQ.fahrenheit q => (q - 32) * 5 / 9 + 273.15
  | TempQ.kelvin q => q

/-- Conversion of a pressure to the base unit pascal (`to_base_units`).  The
pint definition of `mmHg` is 133.322387415 Pa. -/
def PressQ.toPascal : PressQ → ℚ
  | PressQ.mbar q => 100 * q
  | PressQ.kPa q => 1000 * q
  | PressQ.mmHg q => 133.322387415 * q

/-- A temperature argument of `k_tp`: either a pint quantity or a bare
number (`type(temp) != Q_`). -/
inductive TempInput where
  | bare (q : ℚ) : TempInput
  | qty (t : TempQ) : TempInput
deriving DecidableEq

/-- A pressure argument of `k_tp`: either a pint quantity or a bare number. -/
inductive PressInput where
  | bare (q : ℚ) : PressInput
  | qty (p : PressQ) : PressInput
deriving DecidableEq

/-- A bare temperature number is wrapped as `Q_(temp, celsius)`. -/
def TempInput.resolve : TempInput → TempQ
  | TempInput.bare q => TempQ.celsius q
  | TempInput.qty t => t

/-- A bare pressure number is wrapped as `Q_(press, mbar)`. -/
def PressInput.resolve : PressInput → PressQ
  | PressInput.bare q => PressQ.mbar q
  | PressInput.qty p => p

/-- Temperature-pressure correction `k_tp` (NCS-18 eq. 17): the reference
conditions are `t0 = Q_(20, celsius)` and `p0 = Q_(101.325, kPa)`, and
the result is `t/t0 * p0/p` with every quantity taken in base units. -/
def k_tp (temp : TempInput) (press : PressInput) : ℚ :=
  (TempInput.resolve temp).toKelvin / (TempQ.celsius 20).toKelvin *
    ((PressQ.kPa 101.325).toPascal / (PressInput.resolve press).toPascal)

/-- Corrected reading `m_corrected`: the product of the three correction
factors and the mean raw reading. -/
def m_corrected (ktp kpol ks : ℚ) (m_raw : List ℚ) : ℚ :=
  ktp * kpol * ks * listMean m_raw

/-- Modelled from the spec: the calibration aggregate `NCS18Base` is absent
from the sources (only `tests/test_ncs18.py` constructs it); per §4.7 and §6
of the design it stores the full measurement record once at construction.
Field names follow the constructor keywords used by the test. -/
structure NCS18Base where
  temp : TempInput
  press : PressInput
  model : String
  volt_reference : ℚ
  volt_low : ℚ
  m_raw : List ℚ
  m_reference : List ℚ
  m_opposite : List ℚ
  m_low : List ℚ
  adjusted_m_raw : Option (List ℚ) := none

/-- Modelled from the spec: the derived temperature-pressure factor of the
aggregate, computed by `k_tp` from the stored inputs. -/
def NCS18Base.kTP (b : NCS18Base) : ℚ := k_tp b.temp b.press

/-- Modelled from the spec: the derived polarity factor, computed by `k_pol`
from the reference, opposite-polarity and raw reading collections. -/
def NCS18Base.kPol (b : NCS18Base) : ℚ :=
  k_pol b.m_reference b.m_opposite b.m_raw

/-- Modelled from the spec: the derived recombination factor, computed by
`k_s` from the reference and low voltages and the raw and low-voltage
readings. -/
def NCS18Base.kS (b : NCS18Base) : List KSWarning × Except KSError ℚ :=
  k_s b.volt_reference b.volt_low b.m_raw b.m_low

/-- Modelled from the spec: the standard corrected reading, `m_corrected`
over the primary raw reading set and the three derived factors. -/
def NCS18Base.mCorrected (b : NCS18Base) : Except KSError ℚ :=
  (b.kS).2.map (fun s => m_corrected b.kTP b.kPol s b.m_raw)

/-- Modelled from the spec: the adjusted corrected reading, `m_corrected`
over the adjusted raw reading set when one was supplied. -/
def NCS18Base.adjustedMCorrected (b : NCS18Base) : Option (Except KSError ℚ) :=
  b.adjusted_m_raw.map (fun a => (b.kS).2.map (fun s => m_corrected b.kTP b.kPol s a))

/-- Modelled from the spec: the flag telling whether the adjusted reading
path was exercised.  The test constructs the aggregate with
`adjusted_m_raw` equal to `m_raw` and expects the flag to be true, so the
flag is presence of the optional adjusted collection, not distinctness. -/
def NCS18Base.output_was_adjusted (b : NCS18Base) : Bool :=
  b.adjusted_m_raw.isSome

/-- A concrete aggregate mirroring the measurement record of the test suite,
with a distinct adjusted raw collection supplied. -/
def sampleBase : NCS18Base :=
  { temp := TempInput.qty (TempQ.celsius 20)
    press := PressInput.qty (PressQ.mbar 1013.25)
    model := "30012"
    volt_reference := -400
    volt_low := -133
    m_raw := [20, 20, 20]
    m_reference := [20, 20, 20]
    m_opposite := [20, 20, 20]
    m_low := [20, 20, 20]
    adjusted_m_raw := some [21, 21, 21] }

/-! ## Helper lemmas -/

/-- The cohort table lookup succeeds exactly on the nine tabulated keys. -/
lemma cohortCoeffs_isSome_iff (q : ℚ) :
    (cohortCoeffs q).isSome = true ↔ q ∈ cohortKeys := by
  unfold cohortCoeffs cohortKeys
  split_ifs <;> simp_all

/-- Below 2 or above 10 the cohort table has no entry. -/
lemma cohortCoeffs_eq_none_of_out (q : ℚ) (h : q < 2 ∨ q > 10) :
    cohortCoeffs q = none := by
  unfold cohortCoeffs
  split_ifs with h1 h2 h3 h4 h5 h6 h7 h8 h9 <;>
    first
      | rfl
      | (exfalso; subst_vars; rcases h with h | h <;> norm_num at h)

/-- The returned value of `k_s` is determined by the cohort lookup alone:
the explicit below-2/above-10 range check is subsumed by it. -/
lemma k_s_snd_eq (vn vl : ℚ) (mn ml : List ℚ) :
    (k_s vn vl mn ml).2 =
      match cohortCoeffs (pyRound1 (vn / vl)) with
      | some c =>
          Except.ok (c.c0 * (listMean mn / listMean ml) ^ 2 +
            c.c1 * (listMean mn / listMean ml) + c.c2)
      | none => Except.error KSError.unsupported := by
  unfold k_s
  by_cases h : pyRound1 (vn / vl) < 2 ∨ pyRound1 (vn / vl) > 10
  · rw [if_pos h, cohortCoeffs_eq_none_of_out _ h]
  · rw [if_neg h]
    cases hc : cohortCoeffs (pyRound1 (vn / vl)) <;> simp [hc]

/-- The warnings emitted by `k_s` depend only on the rounded ratio, whether
the call subsequently fails or not. -/
lemma k_s_fst_eq (vn vl : ℚ) (mn ml : List ℚ) :
    (k_s vn vl mn ml).1 =
      if pyRound1 (vn / vl) < 3 then [KSWarning.advisory] else [] := by
  unfold k_s
  by_cases h : pyRound1 (vn / vl) < 2 ∨ pyRound1 (vn / vl) > 10
  · rw [if_pos h]
  · rw [if_neg h]
    cases hc : cohortCoeffs (pyRound1 (vn / vl)) <;> simp [hc]

/-- The sign-flip inside `k_pol` is invisible through the absolute values. -/
lemma k_pol_eq (r n p : List ℚ) :
    k_pol r n p = (|listMean p| + |listMean n|) / (2 * listMean r) := by
  unfold k_pol
  dsimp only
  split_ifs <;> simp [abs_neg]

/-- `k_s` succeeds exactly when the rounded voltage ratio is tabulated. -/
lemma k_s_isOk_iff (vn vl : ℚ) (mn ml : List ℚ) :
    exceptIsOk (k_s vn vl mn ml).2 = true ↔ pyRound1 (vn / vl) ∈ cohortKeys := by
  rw [k_s_snd_eq, ← cohortCoeffs_isSome_iff]
  cases hc : cohortCoeffs (pyRound1 (vn / vl)) <;> simp [hc, exceptIsOk]

/-! ## Claim theorems -/

/-- Claim C4: `k_s` raises the unsupported-ratio error exactly when the
voltage ratio rounded to one decimal is not one of the nine tabulated
cohorts — whether it lies outside [2, 10] or strictly between table entries;
no interpolation happens, and every tabulated rounded ratio yields a value. -/
theorem k_s_exact_match_spec (vn vl : ℚ) (mn ml : List ℚ) (h : vl ≠ 0) :
    (exceptIsOk (k_s vn vl mn ml).2 = true ↔ pyRound1 (vn / vl) ∈ cohortKeys) :=
  k_s_isOk_iff vn vl mn ml

/-- Witness for claim C4 at the tabulated ratio 300/100 = 3.0. -/
theorem k_s_exact_match_spec_witness :
    ((100 : ℚ) ≠ 0) ∧
      (exceptIsOk (k_s 300 100 [20] [20]).2 = true ↔
        pyRound1 ((300 : ℚ) / 100) ∈ cohortKeys) :=
  ⟨by decide, k_s_exact_match_spec 300 100 [20] [20] (by decide)⟩

/-- Claim C6: on a tabulated rounded ratio, `k_s` evaluates the quadratic
with the coefficients of that cohort, highest degree first, at the point
`mean(m_normal) / mean(m_low)`; in particular `k_s 300 100 20 20 = 1`. -/
theorem k_s_quadratic_spec (vn vl : ℚ) (mn ml : List ℚ) (c : Coeffs) (h : vl ≠ 0)
    (hc : cohortCoeffs (pyRound1 (vn / vl)) = some c) :
    (k_s vn vl mn ml).2 =
      Except.ok (c.c0 * (listMean mn / listMean ml) ^ 2 +
        c.c1 * (listMean mn / listMean ml) + c.c2) ∧
      (k_s 300 100 [20] [20]).2 = Except.ok 1 := by
  constructor
  · rw [k_s_snd_eq, hc]
  · norm_num [k_s, pyRound1, roundHalfEven, cohortCoeffs, listMean]

/-- Witness for claim C6 at ratio 3.0 with its tabulated coefficients. -/
theorem k_s_quadratic_spec_witness :
    ((100 : ℚ) ≠ 0) ∧
      (k_s 300 100 [20] [20]).2 =
        Except.ok ((0.677 : ℚ) * (listMean [20] / listMean [20]) ^ 2 +
          (-0.875 : ℚ) * (listMean [20] / listMean [20]) + (1.198 : ℚ)) ∧
      (k_s 300 100 [20] [20]).2 = Except.ok 1 :=
  ⟨by decide, k_s_quadratic_spec 300 100 [20] [20] ⟨0.677, -0.875, 1.198⟩ (by decide)
    (by norm_num [cohortCoeffs, pyRound1, roundHalfEven])⟩

/-- Counterexample to claim C5: at voltage ratio 1.0, `k_s` emits the
low-ratio advisory warning and then raises the out-of-range error, so a
side effect does happen before the failure point. -/
theorem k_s_warning_order_cex :
    k_s 100 100 [1] [2] = ([KSWarning.advisory], Except.error KSError.unsupported) := by
  norm_num [k_s, pyRound1, roundHalfEven, cohortCoeffs]

/-- Claim C5 as amended: the advisory warning is emitted whenever the
rounded ratio is below 3, including on calls that subsequently fail; in
particular a ratio below 2 produces the advisory warning followed by the
unsupported-ratio error. -/
theorem k_s_warning_order_spec (vn vl : ℚ) (mn ml : List ℚ) (h : vl ≠ 0) :
    (k_s vn vl mn ml).1 =
        (if pyRound1 (vn / vl) < 3 then [KSWarning.advisory] else []) ∧
      (pyRound1 (vn / vl) < 2 →
        k_s vn vl mn ml = ([KSWarning.advisory], Except.error KSError.unsupported)) := by
  refine ⟨k_s_fst_eq vn vl mn ml, fun h2 => ?_⟩
  have h3 : pyRound1 (vn / vl) < 3 := lt_trans h2 (by norm_num)
  have hfst := k_s_fst_eq vn vl mn ml
  rw [if_pos h3] at hfst
  have hsnd := k_s_snd_eq vn vl mn ml
  rw [cohortCoeffs_eq_none_of_out _ (Or.inl h2)] at hsnd
  exact Prod.ext hfst hsnd

/-- Witness for the amended claim C5 at ratio 1.0. -/
theorem k_s_warning_order_spec_witness :
    ((100 : ℚ) ≠ 0) ∧
      ((k_s 100 100 [1] [2]).1 =
          (if pyRound1 ((100 : ℚ) / 100) < 3 then [KSWarning.advisory] else []) ∧
        (pyRound1 ((100 : ℚ) / 100) < 2 →
          k_s 100 100 [1] [2] = ([KSWarning.advisory], Except.error KSError.unsupported))) :=
  ⟨by decide, k_s_warning_order_spec 100 100 [1] [2] (by decide)⟩

/-- Claim C7: on the tabulated cohorts below 3 (ratio 2.0 or 2.5), `k_s`
emits the advisory warning and still returns a computed value. -/
theorem k_s_low_cohort_advisory (vn vl : ℚ) (mn ml : List ℚ) (h : vl ≠ 0)
    (h2 : pyRound1 (vn / vl) = 2 ∨ pyRound1 (vn / vl) = 2.5) :
    (k_s vn vl mn ml).1 = [KSWarning.advisory] ∧
      exceptIsOk (k_s vn vl mn ml).2 = true := by
  constructor
  · have hfst := k_s_fst_eq vn vl mn ml
    rcases h2 with h2 | h2 <;> rw [h2, if_pos (by norm_num)] at hfst <;> exact hfst
  · refine (k_s_isOk_iff vn vl mn ml).mpr ?_
    rcases h2 with h2 | h2 <;> rw [h2] <;> norm_num [cohortKeys]

/-- Witness for claim C7 at ratio 200/100 = 2.0. -/
theorem k_s_low_cohort_advisory_witness :
    ((100 : ℚ) ≠ 0) ∧
      (pyRound1 ((200 : ℚ) / 100) = 2 ∨ pyRound1 ((200 : ℚ) / 100) = 2.5) ∧
      ((k_s 200 100 [1] [2]).1 = [KSWarning.advisory] ∧
        exceptIsOk (k_s 200 100 [1] [2]).2 = true) :=
  ⟨by decide, Or.inl (by norm_num [pyRound1, roundHalfEven]),
    k_s_low_cohort_advisory 200 100 [1] [2] (by decide)
      (Or.inl (by norm_num [pyRound1, roundHalfEven]))⟩

/-- Claim C8: `k_pol` averages the three collections, silently corrects a
shared sign between the negative and positive averages, and returns
`(|positive| + |negative|) / (2 * reference)`; the sign flip never changes
the result through the absolute values, and the two documented examples
evaluate as stated. -/
theorem k_pol_formula_spec (r n p : List ℚ) (h1 : r ≠ []) (h2 : n ≠ [])
    (h3 : p ≠ []) :
    k_pol r n p = (|listMean p| + |listMean n|) / (2 * listMean r) ∧
      k_pol [300] [300] [-300] = 1 ∧
      |k_pol [-201] [198] [201] + 993 / 1000| < 1 / 1000 := by
  refine ⟨k_pol_eq r n p, by norm_num [k_pol, listMean, sgn], ?_⟩
  norm_num [k_pol, listMean, sgn, abs]

/-- Witness for claim C8 on the first documented example. -/
theorem k_pol_formula_spec_witness :
    (([300] : List ℚ) ≠ [] ∧ ([300] : List ℚ) ≠ [] ∧ ([-300] : List ℚ) ≠ []) ∧
      (k_pol [300] [300] [-300] =
          (|listMean [-300]| + |listMean [300]|) / (2 * listMean [300]) ∧
        k_pol [300] [300] [-300] = 1 ∧
        |k_pol [-201] [198] [201] + 993 / 1000| < 1 / 1000) :=
  ⟨⟨by decide, by decide, by decide⟩,
    k_pol_formula_spec [300] [300] [-300] (by decide) (by decide) (by decide)⟩

/-- Claim C10: the division of `k_pol` is unguarded — for a reference
collection of nonzero mean the denominator is nonzero and the result is the
genuine quotient; the embedding is a total function, reflecting that a
zero-mean reference collection is never rejected with an error. -/
theorem k_pol_unguarded_division (r n p : List ℚ) (h1 : r ≠ []) (h2 : n ≠ [])
    (h3 : p ≠ []) (h4 : listMean r ≠ 0) :
    2 * listMean r ≠ 0 ∧
      k_pol r n p * (2 * listMean r) = |listMean p| + |listMean n| := by
  have hd : (2 : ℚ) * listMean r ≠ 0 := mul_ne_zero two_ne_zero h4
  exact ⟨hd, by rw [k_pol_eq]; exact div_mul_cancel₀ _ hd⟩

/-- Witness for claim C10 on a reference collection of mean 1. -/
theorem k_pol_unguarded_division_witness :
    (([1] : List ℚ) ≠ [] ∧ ([2] : List ℚ) ≠ [] ∧ ([-3] : List ℚ) ≠ [] ∧
        listMean [1] ≠ 0) ∧
      (2 * listMean [1] ≠ 0 ∧
        k_pol [1] [2] [-3] * (2 * listMean [1]) = |listMean [-3]| + |listMean [2]|) :=
  ⟨⟨by decide, by decide, by decide, by norm_num [listMean]⟩,
    k_pol_unguarded_division [1] [2] [-3] (by decide) (by decide) (by decide)
      (by norm_num [listMean])⟩

/-- Counterexample to claim C1: `k_q` called with only `r_50 = 0` supplied
raises the neither-provided error, because the presence check is a
truthiness test that treats an explicit zero as absent. -/
theorem k_q_presence_cex :
    k_q (fun q => q) (fun a b => a) "30012" none (some 0) =
      Except.error KQError.neitherProvided := by
  rfl

/-- Claim C1 as amended: the presence checks of `k_q` use Python
truthiness, so a zero argument counts as absent — the neither-provided
error fires exactly when each of `tpr` and `r_50` is absent or zero, and
the both-provided error fires when `tpr` is present and nonzero while
`r_50` is present (there an explicit `r_50 = 0` does count as present). -/
theorem k_q_presence_spec (ex : ℚ → ℚ) (pw : ℚ → ℚ → ℚ) (model : String)
    (tpr r50 : Option ℚ) :
    (k_q ex pw model tpr r50 = Except.error KQError.neitherProvided ↔
        truthy tpr = false ∧ truthy r50 = false) ∧
      (truthy tpr = true → r50.isSome = true →
        k_q ex pw model tpr r50 = Except.error KQError.bothProvided) := by
  constructor
  · constructor
    · intro h
      unfold k_q at h
      split at h
      · rename_i hcond
        simpa using hcond
      · rename_i hcond
        split at h
        · simp at h
        · split at h
          · split at h
            · simp at h
            · split at h <;> simp at h
          · split at h
            · split at h <;> simp at h
            · rename_i hr
              simp [truthy] at hcond
    · rintro ⟨ht, hr⟩
      unfold k_q
      rw [ht, hr]
      rfl
  · intro ht hs
    unfold k_q
    rw [ht]
    simp [hs]

/-- Witness for the amended claim C1: both arguments present and nonzero
trigger the both-provided error. -/
theorem k_q_presence_spec_witness :
    k_q (fun q => q) (fun a b => a) "30012" (some 1) (some 1) =
      Except.error KQError.bothProvided :=
  (k_q_presence_spec (fun q => q) (fun a b => a) "30012" (some 1) (some 1)).2
    (by decide) (by decide)

/-- Counterexample to claim C3: the boundary value `tpr = 0.623` is not
rejected — `k_q` returns a value there, because the source compares with
strict inequalities. -/
theorem k_q_photon_boundary_cex :
    exceptIsOk (k_q (fun q => q) (fun a b => a) "30012" (some 0.623) none) = true := by
  norm_num [k_q, truthy, chambersPhotons, exceptIsOk]

/-- Claim C3 as amended: in photon mode with a nonzero `tpr`, `k_q` raises
the out-of-range error exactly for `tpr` strictly outside the closed
interval [0.623, 0.805]; both boundary values are accepted, and for every
`tpr` inside the closed interval with a chamber model present in the photon
table the sigmoid `A + (1-A)(1 + exp(C(0.57-X0)))/(1 + exp(C(tpr-X0)))` is
returned.  A `tpr` of exactly zero is instead caught by the presence checks. -/
theorem k_q_photon_range_spec (ex : ℚ → ℚ) (pw : ℚ → ℚ → ℚ) (model : String)
    (t : ℚ) (ch : PhotonChamber) (h : t ≠ 0)
    (hch : chambersPhotons model = some ch) :
    ((t < 0.623 ∨ t > 0.805) →
        k_q ex pw model (some t) none = Except.error KQError.tprOutOfRange) ∧
      (0.623 ≤ t → t ≤ 0.805 →
        k_q ex pw model (some t) none =
          Except.ok (ch.A + (1 - ch.A) * (1 + ex (ch.C * (0.57 - ch.X0))) /
            (1 + ex (ch.C * (t - ch.X0))))) := by
  have ht : truthy (some t) = true := by simp [truthy, h]
  constructor
  · intro hout
    unfold k_q
    rw [ht]
    simp only [truthy, Bool.true_or, Bool.not_true, Bool.false_eq_true, if_false,
      Option.isSome_none, Bool.and_false]
    rw [if_pos hout.symm]
  · intro h1 h2
    unfold k_q
    rw [ht]
    simp only [truthy, Bool.true_or, Bool.not_true, Bool.false_eq_true, if_false,
      Option.isSome_none, Bool.and_false]
    rw [if_neg (not_or.mpr ⟨not_lt.mpr h2, not_lt.mpr h1⟩), hch]

/-- Witness for the amended claim C3 at the in-range value `tpr = 0.7` with
the PTW 30012 chamber and the identity standing in for `exp`. -/
theorem k_q_photon_range_spec_witness :
    ((0.7 : ℚ) ≠ 0) ∧ chambersPhotons "30012" = some ⟨0.9198, 11.67, 0.80⟩ ∧
      (((0.7 : ℚ) < 0.623 ∨ (0.7 : ℚ) > 0.805) →
        k_q (fun q => q) (fun a b => a) "30012" (some 0.7) none =
          Except.error KQError.tprOutOfRange) ∧
      ((0.623 : ℚ) ≤ 0.7 → (0.7 : ℚ) ≤ 0.805 →
        k_q (fun q => q) (fun a b => a) "30012" (some 0.7) none =
          Except.ok ((0.80 : ℚ) + (1 - 0.80) * (1 + ((11.67 : ℚ) * (0.57 - 0.9198))) /
            (1 + ((11.67 : ℚ) * (0.7 - 0.9198))))) :=
  ⟨by norm_num, by norm_num [chambersPhotons],
    (k_q_photon_range_spec (fun q => q) (fun a b => a) "30012" 0.7 ⟨0.9198, 11.67, 0.80⟩
      (by norm_num) (by norm_num [chambersPhotons])).1,
    (k_q_photon_range_spec (fun q => q) (fun a b => a) "30012" 0.7 ⟨0.9198, 11.67, 0.80⟩
      (by norm_num) (by norm_num [chambersPhotons])).2⟩

/-- Claim C9: `k_tp` equals the measured-over-reference temperature ratio
times the reference-over-measured pressure ratio, with the references
20 celsius = 293.15 K and 101.325 kPa = 101325 Pa taken in base units; a
bare-number input is read as celsius and mbar, and every input pair whose
base-unit value equals the reference point yields exactly 1. -/
theorem k_tp_reference_spec (t : TempInput) (p : PressInput) :
    k_tp t p = t.resolve.toKelvin / 293.15 * (101325 / p.resolve.toPascal) ∧
      (t.resolve.toKelvin = 293.15 → p.resolve.toPascal = 101325 → k_tp t p = 1) ∧
      k_tp (TempInput.bare 20) (PressInput.bare 1013.25) = 1 := by
  refine ⟨?_, fun ht hp => ?_, ?_⟩
  · unfold k_tp
    norm_num [TempQ.toKelvin, PressQ.toPascal]
  · unfold k_tp
    rw [ht, hp]
    norm_num [TempQ.toKelvin, PressQ.toPascal]
  · norm_num [k_tp, TempInput.resolve, PressInput.resolve, TempQ.toKelvin,
      PressQ.toPascal]

/-- Witness for claim C9: 68 fahrenheit and the mmHg value of the reference
pressure give exactly 1. -/
theorem k_tp_reference_spec_witness :
    k_tp (TempInput.qty (TempQ.fahrenheit 68))
        (PressInput.qty (PressQ.mmHg (101325000000000 / 133322387415))) = 1 :=
  (k_tp_reference_spec (TempInput.qty (TempQ.fahrenheit 68))
      (PressInput.qty (PressQ.mmHg (101325000000000 / 133322387415)))).2.1
    (by norm_num [TempInput.resolve, TempQ.toKelvin])
    (by norm_num [PressInput.resolve, PressQ.toPascal])

/-- Claim C2: the calibration aggregate stores the full measurement record
once and derives every correction factor and the corrected and adjusted
readings from it through the correction functions; when an adjusted raw
collection distinct from the primary one is supplied, the
`output_was_adjusted` flag is true. -/
theorem ncs18base_aggregate_spec (b : NCS18Base) (a : List ℚ)
    (ha : b.adjusted_m_raw = some a) (hd : a ≠ b.m_raw) :
    b.kTP = k_tp b.temp b.press ∧
      b.kPol = k_pol b.m_reference b.m_opposite b.m_raw ∧
      b.kS = k_s b.volt_reference b.volt_low b.m_raw b.m_low ∧
      b.mCorrected = (b.kS).2.map (fun s => m_corrected b.kTP b.kPol s b.m_raw) ∧
      b.adjustedMCorrected =
        some ((b.kS).2.map (fun s => m_corrected b.kTP b.kPol s a)) ∧
      b.output_was_adjusted = true := by
  refine ⟨rfl, rfl, rfl, rfl, ?_, ?_⟩
  · unfold NCS18Base.adjustedMCorrected
    rw [ha]
    rfl
  · unfold NCS18Base.output_was_adjusted
    rw [ha]
    rfl

/-- Witness for claim C2 on the concrete aggregate `sampleBase`. -/
theorem ncs18base_aggregate_spec_witness :
    (sampleBase.adjusted_m_raw = some [21, 21, 21] ∧
        ([21, 21, 21] : List ℚ) ≠ sampleBase.m_raw) ∧
      (sampleBase.kTP = k_tp sampleBase.temp sampleBase.press ∧
        sampleBase.kPol = k_pol sampleBase.m_reference sampleBase.m_opposite
          sampleBase.m_raw ∧
        sampleBase.kS = k_s sampleBase.volt_reference sampleBase.volt_low
          sampleBase.m_raw sampleBase.m_low ∧
        sampleBase.mCorrected = (sampleBase.kS).2.map
          (fun s => m_corrected sampleBase.kTP sampleBase.kPol s sampleBase.m_raw) ∧
        sampleBase.adjustedMCorrected = some ((sampleBase.kS).2.map
          (fun s => m_corrected sampleBase.kTP sampleBase.kPol s [21, 21, 21])) ∧
        sampleBase.output_was_adjusted = true) :=
  ⟨⟨rfl, by decide⟩,
    ncs18base_aggregate_spec sampleBase [21, 21, 21] rfl (by decide)⟩

end NCS18
